import Mathlib

/-!
Shallow embedding of `src/library/core/src/ptr/verify_const_prt.rs`: two Kani
proof harnesses over raw-pointer arithmetic (`kani_pointer_add`,
`kani_pointer_offset`) and their concrete proof entry points
(`verify_pointer_add`, `verify_pointer_offset`).

Modelling conventions:
* Pointers are `Nat` addresses; `size_of::<T>()` is a `Nat` parameter `sizeT`.
* `kani::mem::can_dereference(ptr)` is library code outside this repository;
  the harnesses treat it opaquely, so it enters the embedding as a boolean
  input (`deref`), or as an abstract predicate over an explicit byte memory in
  the state-passing variants.
* A Kani path ends in one of four verdicts, captured by `Outcome`:
  a failed `kani::assume` discards the path; `kani::assert` either passes or
  fails with its diagnostic string; an arithmetic fault (the division by
  zero that `object_size / size_of::<T>()` performs when
  `size_of::<T>() = 0`, and — in the checked variants — the arithmetic
  checks Kani inserts by default) aborts the path before the assertion.
* The `as isize` cast of line 56 is defined Rust behaviour and is modelled
  exactly: `usize_as_isize` reinterprets a `usize` value, so quotients at or
  above `2 ^ 63` give a negative `max_offset` and the count assumption then
  discards every run.
* The embedding is two-layered.  `kani_pointer_add` and
  `kani_pointer_offset` embed the source at the assume/assert level, over
  defined-behaviour arithmetic on unbounded `Nat`/`Int` (overflowing
  `ptr.add`, `ptr.offset` and `usize` addition are not defined behaviour and
  Kani reports them separately).  `kani_pointer_add_checked` and
  `kani_pointer_offset_checked` additionally make those default Kani
  arithmetic checks explicit as `fault` paths, for the claims about failure
  modes.  Where the spec talks about wrapping of `usize` addition, the
  explicit modular operation `usizeAdd` is used and compared against the
  unbounded sum.
-/

namespace VerifyConstPtr

/-- Bit width of `usize` on the 64-bit targets the harness runs on. -/
def usizeBits : Nat := 64

/-- The modulus of `usize` arithmetic, `2 ^ 64`. -/
def usizeMod : Nat := 2 ^ usizeBits

/-- The value `usize::MAX`. -/
def usizeMax : Nat := usizeMod - 1

/-- Wrapping `usize` addition, used to state where `ptr as usize + object_size`
could wrap around the address space. -/
def usizeAdd (a b : Nat) : Nat := (a + b) % usizeMod

/-- The value `isize::MAX`. -/
def isizeMax : Nat := 2 ^ 63 - 1

/-- The value of a `usize` reinterpreted by an `as isize` cast (line 56):
a same-width integer cast wraps, so values at or above `2 ^ 63` become
negative. -/
def usize_as_isize (n : Nat) : Int :=
  if n % usizeMod < 2 ^ 63 then ((n % usizeMod : Nat) : Int)
  else ((n % usizeMod : Nat) : Int) - (usizeMod : Int)

/-- The verdict of one execution path of a Kani harness:
`discarded` — a `kani::assume` condition was false and the path is dropped;
`passed` — the `kani::assert` condition held;
`failed msg` — the `kani::assert` condition was false and is reported with
the diagnostic `msg`;
`fault` — a Rust arithmetic fault (division by zero) aborted the path before
the assertion. -/
inductive Outcome where
  | discarded : Outcome
  | passed : Outcome
  | failed : String → Outcome
  | fault : Outcome
deriving DecidableEq, Repr

/-- Embedding of `fn kani_pointer_add<T>(ptr: *const T, count: usize,
object_size: usize)` (verify_const_prt.rs, lines 15–36).  `sizeT` stands for
`std::mem::size_of::<T>()` and `deref` for the value of
`can_dereference(ptr)`.  The body assumes dereferenceability, assumes
`count * size_of_t <= object_size`, computes `offset_ptr = ptr.add(count)`
and `end_of_object = ptr as usize + object_size`, and asserts
`offset_ptr <= end_of_object` with the message
"Pointer offset is out of bounds." -/
def kani_pointer_add (sizeT : Nat) (deref : Bool) (ptr count object_size : Nat) :
    Outcome :=
  if deref = false then Outcome.discarded
  else
    let size_of_t := sizeT
    if count * size_of_t ≤ object_size then
      let offset_ptr := ptr + count * size_of_t
      let end_of_object := ptr + object_size
      if offset_ptr ≤ end_of_object then Outcome.passed
      else Outcome.failed "Pointer offset is out of bounds."
    else Outcome.discarded

/-- Embedding of `fn kani_pointer_offset<T>(ptr: *const T, count: isize,
object_size: usize)` (verify_const_prt.rs, lines 49–73).  After the
dereferenceability assumption the body computes
`max_offset = (object_size / size_of_t) as isize` — a division that faults
when `size_of::<T>() = 0`, followed by a wrapping `usize -> isize` cast —
then assumes `count >= 0 && count <= max_offset`, computes
`offset_ptr = ptr.offset(count)` and
`end_of_object = ptr as usize + object_size`, and asserts
`offset_ptr <= end_of_object` with the message
"Pointer offset is out of bounds."  When the quotient is at or above
`2 ^ 63` the cast makes `max_offset` negative and the assumption discards
every run. -/
def kani_pointer_offset (sizeT : Nat) (deref : Bool) (ptr : Nat) (count : Int)
    (object_size : Nat) : Outcome :=
  if deref = false then Outcome.discarded
  else
    let size_of_t := sizeT
    if size_of_t = 0 then Outcome.fault
    else
      let max_offset : Int := usize_as_isize (object_size / size_of_t)
      if 0 ≤ count ∧ count ≤ max_offset then
        let offset_ptr : Int := (ptr : Int) + count * (size_of_t : Int)
        let end_of_object : Int := (ptr : Int) + (object_size : Int)
        if offset_ptr ≤ end_of_object then Outcome.passed
        else Outcome.failed "Pointer offset is out of bounds."
      else Outcome.discarded

/-- Embedding of `kani_pointer_add` with the arithmetic checks Kani inserts
by default made explicit: the multiplication `count * size_of_t` evaluated
inside the line-22 assumption, the pointer arithmetic of `ptr.add(count)` on
line 25 and the addition `ptr as usize + object_size` on line 28 are each
reported as a fault when the result does not fit in `usize`. -/
def kani_pointer_add_checked (sizeT : Nat) (deref : Bool)
    (ptr count object_size : Nat) : Outcome :=
  if deref = false then Outcome.discarded
  else
    let size_of_t := sizeT
    if usizeMax < count * size_of_t then Outcome.fault
    else if count * size_of_t ≤ object_size then
      if usizeMax < ptr + count * size_of_t then Outcome.fault
      else if usizeMax < ptr + object_size then Outcome.fault
      else
        let offset_ptr := ptr + count * size_of_t
        let end_of_object := ptr + object_size
        if offset_ptr ≤ end_of_object then Outcome.passed
        else Outcome.failed "Pointer offset is out of bounds."
    else Outcome.discarded

/-- Embedding of `kani_pointer_offset` with Kani's default arithmetic checks
made explicit: the byte offset `count * size_of_t` of `ptr.offset(count)` on
line 62 must fit in `isize` and the resulting address in `usize`, and the
addition `ptr as usize + object_size` on line 65 must fit in `usize`; each
violation is reported as a fault. -/
def kani_pointer_offset_checked (sizeT : Nat) (deref : Bool) (ptr : Nat)
    (count : Int) (object_size : Nat) : Outcome :=
  if deref = false then Outcome.discarded
  else
    let size_of_t := sizeT
    if size_of_t = 0 then Outcome.fault
    else
      let max_offset : Int := usize_as_isize (object_size / size_of_t)
      if 0 ≤ count ∧ count ≤ max_offset then
        if (isizeMax : Int) < count * (size_of_t : Int) then Outcome.fault
        else if (usizeMax : Int) < (ptr : Int) + count * (size_of_t : Int) then
          Outcome.fault
        else if usizeMax < ptr + object_size then Outcome.fault
        else
          let offset_ptr : Int := (ptr : Int) + count * (size_of_t : Int)
          let end_of_object : Int := (ptr : Int) + (object_size : Int)
          if offset_ptr ≤ end_of_object then Outcome.passed
          else Outcome.failed "Pointer offset is out of bounds."
      else Outcome.discarded

/-- The string literal `"123"` used by both proof entry points. -/
def s : String := "123"

/-- The value of `std::mem::size_of::<u8>()`: the entry points instantiate
both harnesses at `T = u8`. -/
def sizeOfU8 : Nat := 1

/-- Embedding of `#[kani::proof] fn verify_pointer_add()` (lines 75–84):
`ptr = s.as_ptr()` is the (arbitrary) base address of the live literal
`"123"`, hence dereferenceable (`deref = true`); `object_size = s.len()` is
its byte length; the harness is called with the two counts 1 and 2. -/
def verify_pointer_add (ptr : Nat) : List Outcome :=
  let object_size := s.utf8ByteSize
  [kani_pointer_add sizeOfU8 true ptr 1 object_size,
   kani_pointer_add sizeOfU8 true ptr 2 object_size]

/-- Embedding of `#[kani::proof] fn verify_pointer_offset()` (lines 86–95):
same concrete instantiation, calling `kani_pointer_offset` with the two
counts 1 and 2. -/
def verify_pointer_offset (ptr : Nat) : List Outcome :=
  let object_size := s.utf8ByteSize
  [kani_pointer_offset sizeOfU8 true ptr 1 object_size,
   kani_pointer_offset sizeOfU8 true ptr 2 object_size]

/-- The count precondition assumed by `kani_pointer_add` (line 22):
`count * size_of_t <= object_size`. -/
def add_bound (sizeT count object_size : Nat) : Bool :=
  decide (count * sizeT ≤ object_size)

/-- The count precondition assumed by `kani_pointer_offset` (lines 56–59):
`count >= 0 && count <= (object_size / size_of_t) as isize`.  The division is
evaluated first, so for `sizeT = 0` the bound itself faults (`none`); its
result is then wrapped by the `as isize` cast before the comparison. -/
def offset_bound (sizeT : Nat) (count : Int) (object_size : Nat) : Option Bool :=
  if sizeT = 0 then none
  else some (decide (0 ≤ count) &&
             decide (count ≤ usize_as_isize (object_size / sizeT)))

/-- A byte memory: an assignment of a byte value to every address. -/
def Mem : Type := Nat → Nat

/-- State-passing embedding of `kani_pointer_add`: the body contains no store
instruction, so it threads the memory through unchanged; its only interaction
with memory is reading the `can_dereference` verdict. -/
def kani_pointer_add_mem (sizeT : Nat) (canDeref : Mem → Nat → Bool) (mem : Mem)
    (ptr count object_size : Nat) : Mem × Outcome :=
  (mem, kani_pointer_add sizeT (canDeref mem ptr) ptr count object_size)

/-- State-passing embedding of `kani_pointer_offset`: as for the addition
harness, the body contains no store instruction. -/
def kani_pointer_offset_mem (sizeT : Nat) (canDeref : Mem → Nat → Bool)
    (mem : Mem) (ptr : Nat) (count : Int) (object_size : Nat) : Mem × Outcome :=
  (mem, kani_pointer_offset sizeT (canDeref mem ptr) ptr count object_size)

/-- The byte length of the literal `"123"` is 3. -/
theorem s_utf8ByteSize : s.utf8ByteSize = 3 := rfl

/-- The modulus of `usize` arithmetic as a numeral. -/
theorem usizeMod_eq : usizeMod = 18446744073709551616 := by
  unfold usizeMod usizeBits; norm_num

/-- The `as isize` reinterpretation of a `usize` value never exceeds the
value itself. -/
theorem usize_as_isize_le (n : Nat) : usize_as_isize n ≤ (n : Int) := by
  unfold usize_as_isize
  split
  · exact_mod_cast Nat.mod_le n usizeMod
  · have h1 : ((n % usizeMod : Nat) : Int) ≤ (n : Int) := by
      exact_mod_cast Nat.mod_le n usizeMod
    have h2 : (0 : Int) < (usizeMod : Int) := by
      rw [usizeMod_eq]; norm_num
    linarith

/-- The `as isize` reinterpretation is the identity on values that fit in
`isize`. -/
theorem usize_as_isize_of_small (n : Nat) (h : n ≤ isizeMax) :
    usize_as_isize n = (n : Int) := by
  have h63 : (2 : Nat) ^ 63 = 9223372036854775808 := by norm_num
  have hi : isizeMax = 9223372036854775807 := by unfold isizeMax; rw [h63]
  rw [hi] at h
  have hm : n % usizeMod = n := by
    apply Nat.mod_eq_of_lt
    rw [usizeMod_eq]; omega
  unfold usize_as_isize
  rw [hm, if_pos (by rw [h63]; omega)]

/-- C1: for every element size, pointer, count and object size satisfying the
preconditions of `kani_pointer_add` — the pointer is dereferenceable and
`count * size_of::<T>() <= object_size` — the pointer computed by
`ptr.add(count)` lies at or before the end-of-object address
`ptr as usize + object_size`, so the asserted postcondition holds and the
harness path passes. -/
theorem pointer_add_postcondition_holds (sizeT ptr count object_size : Nat)
    (hmul : count * sizeT ≤ object_size) :
    ptr + count * sizeT ≤ ptr + object_size ∧
    kani_pointer_add sizeT true ptr count object_size = Outcome.passed := by
  have hle : ptr + count * sizeT ≤ ptr + object_size :=
    Nat.add_le_add_left hmul ptr
  refine ⟨hle, ?_⟩
  simp [kani_pointer_add, hmul, hle]

/-- Witness for C1: the theorem applied at `sizeT = 4`, `ptr = 100`,
`count = 2`, `object_size = 9`. -/
theorem pointer_add_postcondition_holds_witness :
    100 + 2 * 4 ≤ 100 + 9 ∧
    kani_pointer_add 4 true 100 2 9 = Outcome.passed :=
  pointer_add_postcondition_holds 4 100 2 9 (by decide)

/-- C2: for every positive element size, pointer, signed count and object
size satisfying the preconditions of `kani_pointer_offset` as the source
assumes them — the pointer is dereferenceable, `count >= 0` and
`count <= max_offset` where `max_offset` is the line-56 value
`(object_size / size_of_t) as isize` — the pointer computed by
`ptr.offset(count)` lies at or before the end-of-object address
`ptr as usize + object_size`, so the asserted postcondition holds and the
harness path passes.  (For quotients at or above `2 ^ 63` the cast makes
`max_offset` negative, the precondition is unsatisfiable and the source
discards every run.) -/
theorem pointer_offset_postcondition_holds (sizeT ptr object_size : Nat)
    (count : Int) (hsz : 0 < sizeT) (h0 : 0 ≤ count)
    (hle : count ≤ usize_as_isize (object_size / sizeT)) :
    (ptr : Int) + count * (sizeT : Int) ≤ (ptr : Int) + (object_size : Int) ∧
    kani_pointer_offset sizeT true ptr count object_size = Outcome.passed := by
  have hq : count ≤ ((object_size / sizeT : Nat) : Int) :=
    le_trans hle (usize_as_isize_le _)
  have hmul : count * (sizeT : Int) ≤ (object_size : Int) := by
    calc count * (sizeT : Int)
        ≤ ((object_size / sizeT : Nat) : Int) * (sizeT : Int) :=
          mul_le_mul_of_nonneg_right hq (by exact_mod_cast Nat.zero_le sizeT)
      _ ≤ (object_size : Int) := by
          exact_mod_cast Nat.div_mul_le_self object_size sizeT
  have hend : (ptr : Int) + count * (sizeT : Int) ≤
      (ptr : Int) + (object_size : Int) := by linarith
  refine ⟨hend, ?_⟩
  simp only [kani_pointer_offset]
  rw [if_neg (by decide : ¬(true = false)), if_neg hsz.ne',
    if_pos ⟨h0, hle⟩, if_pos hend]

/-- Witness for C2: the theorem applied at `sizeT = 1`, `ptr = 7`,
`object_size = 3`, `count = 2` (where `max_offset = 3`). -/
theorem pointer_offset_postcondition_holds_witness :
    ((7 : Nat) : Int) + 2 * ((1 : Nat) : Int) ≤ ((7 : Nat) : Int) + ((3 : Nat) : Int) ∧
    kani_pointer_offset 1 true 7 2 3 = Outcome.passed :=
  pointer_offset_postcondition_holds 1 7 3 2 (by decide) (by decide) (by decide)

/-- C3: both proof entry points use the 3-byte literal `"123"` as object
(object size 3) and the two concrete counts 1 and 2, and — for any base
address of the literal — all four harness calls satisfy their preconditions
and their in-bounds assertions pass. -/
theorem entry_points_pass (ptr : Nat) :
    s.utf8ByteSize = 3 ∧
    verify_pointer_add ptr = [Outcome.passed, Outcome.passed] ∧
    verify_pointer_offset ptr = [Outcome.passed, Outcome.passed] := by
  refine ⟨rfl, ?_, ?_⟩
  · simp [verify_pointer_add, kani_pointer_add, sizeOfU8, s_utf8ByteSize]
  · have e : usize_as_isize 3 = 3 := by decide
    simp [verify_pointer_offset, kani_pointer_offset, sizeOfU8, s_utf8ByteSize, e]

/-- Witness for C3: the theorem applied at base address 0. -/
theorem entry_points_pass_witness :
    s.utf8ByteSize = 3 ∧
    verify_pointer_add 0 = [Outcome.passed, Outcome.passed] ∧
    verify_pointer_offset 0 = [Outcome.passed, Outcome.passed] :=
  entry_points_pass 0

/-- C4, counterexample: the claim quantifies over every element type, count
and object size, but the two count bounds can disagree.  At
`size_of::<T>() = 0` the addition bound `count * size_of_t <= object_size`
accepts `count = 1` (it reduces to `0 <= object_size`), while the offset
bound faults on its division `object_size / size_of_t`.  And at
`size_of::<T>() = 1`, `object_size = 2 ^ 63` the addition bound accepts
`count = 0` while the offset bound rejects it: the line-56 `as isize` cast
wraps the quotient `2 ^ 63` to the negative `max_offset = -2 ^ 63`. -/
theorem offset_bound_disagrees_with_add_bound :
    (add_bound 0 1 0 = true ∧ offset_bound 0 1 0 = none) ∧
    (add_bound 1 0 (2 ^ 63) = true ∧
      offset_bound 1 0 (2 ^ 63) = some false) := by
  refine ⟨⟨rfl, rfl⟩, ⟨by decide, by decide⟩⟩

/-- C4 (amended): for every element type of positive size, every non-negative
count and every object size whose quotient `object_size / size_of_t` fits in
`isize`, the bound assumed by `kani_pointer_offset`
(`count <= (object_size / size_of_t) as isize`) accepts exactly the same
counts as the bound assumed by `kani_pointer_add`
(`count * size_of_t <= object_size`); for a zero-sized type the offset bound
faults, and for quotients at or above `2 ^ 63` the wrapped `max_offset` is
negative, so the offset bound rejects every count the addition bound
accepts. -/
theorem bounds_equivalent_for_positive_size (sizeT object_size : Nat)
    (count : Int) (hsz : 0 < sizeT) (h0 : 0 ≤ count)
    (hq : object_size / sizeT ≤ isizeMax) :
    offset_bound sizeT count object_size =
      some (add_bound sizeT count.toNat object_size) := by
  unfold offset_bound add_bound
  rw [if_neg hsz.ne', usize_as_isize_of_small _ hq]
  congr 1
  have h1 : decide (0 ≤ count) = true := by simpa using h0
  rw [h1, Bool.true_and, decide_eq_decide, ← Nat.le_div_iff_mul_le hsz,
    ← Int.toNat_le]

/-- Witness for C4 (amended): the theorem applied at `sizeT = 1`,
`object_size = 3`, `count = 2` (quotient 3 fits in `isize`). -/
theorem bounds_equivalent_for_positive_size_witness :
    offset_bound 1 2 3 = some (add_bound 1 (2 : Int).toNat 3) :=
  bounds_equivalent_for_positive_size 1 3 2 (by decide) (by decide) (by decide)

/-- C5, counterexample: the input `sizeT = 0`, `deref = true`, `ptr = 0`,
`count = -1`, `object_size = 0` violates the count precondition
(`count >= 0` fails), yet the run is not discarded: the unguarded division
faults, which the model checker reports as a violation. -/
theorem offset_precondition_violation_faults :
    kani_pointer_offset 0 true 0 (-1) 0 = Outcome.fault := rfl

/-- C5 (amended): violated preconditions discard the run without evaluating
the postcondition assertion — in `kani_pointer_add` for every element size,
and in `kani_pointer_offset` for every positive element size (for a
zero-sized element the division faults before the count assumption). -/
theorem violated_preconditions_discard_run :
    (∀ sizeT ptr count object_size : Nat,
        kani_pointer_add sizeT false ptr count object_size =
          Outcome.discarded) ∧
    (∀ sizeT ptr count object_size : Nat, ¬ count * sizeT ≤ object_size →
        kani_pointer_add sizeT true ptr count object_size =
          Outcome.discarded) ∧
    (∀ (sizeT ptr : Nat) (count : Int) (object_size : Nat),
        kani_pointer_offset sizeT false ptr count object_size =
          Outcome.discarded) ∧
    (∀ (sizeT ptr : Nat) (count : Int) (object_size : Nat), 0 < sizeT →
        ¬ (0 ≤ count ∧ count ≤ ((object_size / sizeT : Nat) : Int)) →
        kani_pointer_offset sizeT true ptr count object_size =
          Outcome.discarded) := by
  refine ⟨fun _ _ _ _ => rfl, ?_, fun _ _ _ _ => rfl, ?_⟩
  · intro sizeT ptr count object_size h
    simp only [kani_pointer_add]
    rw [if_neg (by decide : ¬(true = false)), if_neg h]
  · intro sizeT ptr count object_size hsz h
    have h' : ¬ (0 ≤ count ∧
        count ≤ usize_as_isize (object_size / sizeT)) := fun hc =>
      h ⟨hc.1, le_trans hc.2 (usize_as_isize_le _)⟩
    simp only [kani_pointer_offset]
    rw [if_neg (by decide : ¬(true = false)), if_neg hsz.ne', if_neg h']

/-- Witness for C5 (amended): a count too large for the addition harness and
a negative count for the offset harness both discard the run. -/
theorem violated_preconditions_discard_run_witness :
    kani_pointer_add 1 true 0 5 3 = Outcome.discarded ∧
    kani_pointer_offset 1 true 0 (-1) 3 = Outcome.discarded :=
  ⟨violated_preconditions_discard_run.2.1 1 0 5 3 (by decide),
   violated_preconditions_discard_run.2.2.2 1 0 (-1) 3 (by decide) (by decide)⟩

/-- C6, counterexample: both harnesses have failure modes other than the
falsity of the asserted postcondition.  For a zero-sized element type the
offset harness faults on its unguarded division (at an input satisfying the
dereferenceability assumption), and for the positive element size 2 the
addition harness faults on the overflow of `count * size_of_t` inside the
line-22 assumption (`2 ^ 63 * 2` does not fit in `usize`), a failure Kani's
default checks report before any count assumption can discard the run. -/
theorem offset_fault_extra_failure_mode :
    kani_pointer_offset 0 true 0 0 0 = Outcome.fault ∧
    kani_pointer_add_checked 2 true 0 (2 ^ 63) 5 = Outcome.fault := by
  refine ⟨rfl, by decide⟩

/-- C6 (amended): beyond the arithmetic fault paths of the division by zero
(zero-sized element types) and Kani's default overflow checks (the
multiplication `count * size_of_t`, the pointer arithmetic and the
end-of-object addition, whose distinct diagnostics the embedding collapses
into `fault`), the only failure mode of either harness is the falsity of its
asserted postcondition, and any such assertion failure carries the single
fixed diagnostic "Pointer offset is out of bounds.", identical in both
harnesses: over the checked embeddings every path is discarded, passed,
a fault, or that one assertion failure. -/
theorem failure_modes_and_diagnostic (sizeT ptr count object_size : Nat)
    (icount : Int) (deref : Bool) :
    (kani_pointer_add_checked sizeT deref ptr count object_size =
       Outcome.discarded ∨
     kani_pointer_add_checked sizeT deref ptr count object_size =
       Outcome.passed ∨
     kani_pointer_add_checked sizeT deref ptr count object_size =
       Outcome.fault ∨
     kani_pointer_add_checked sizeT deref ptr count object_size =
       Outcome.failed "Pointer offset is out of bounds.") ∧
    (kani_pointer_offset_checked sizeT deref ptr icount object_size =
       Outcome.discarded ∨
     kani_pointer_offset_checked sizeT deref ptr icount object_size =
       Outcome.passed ∨
     kani_pointer_offset_checked sizeT deref ptr icount object_size =
       Outcome.fault ∨
     kani_pointer_offset_checked sizeT deref ptr icount object_size =
       Outcome.failed "Pointer offset is out of bounds.") := by
  constructor
  · simp only [kani_pointer_add_checked]
    repeat' split
    all_goals simp
  · simp only [kani_pointer_offset_checked]
    repeat' split
    all_goals simp

/-- Witness for C6 (amended): the classification at `sizeT = 1`, `ptr = 0`,
`count = 1`, `icount = 2`, `object_size = 3`, `deref = true`. -/
theorem failure_modes_and_diagnostic_witness :
    (kani_pointer_add_checked 1 true 0 1 3 = Outcome.discarded ∨
     kani_pointer_add_checked 1 true 0 1 3 = Outcome.passed ∨
     kani_pointer_add_checked 1 true 0 1 3 = Outcome.fault ∨
     kani_pointer_add_checked 1 true 0 1 3 =
       Outcome.failed "Pointer offset is out of bounds.") ∧
    (kani_pointer_offset_checked 1 true 0 2 3 = Outcome.discarded ∨
     kani_pointer_offset_checked 1 true 0 2 3 = Outcome.passed ∨
     kani_pointer_offset_checked 1 true 0 2 3 = Outcome.fault ∨
     kani_pointer_offset_checked 1 true 0 2 3 =
       Outcome.failed "Pointer offset is out of bounds.") :=
  failure_modes_and_diagnostic 1 0 1 3 2 true

/-- C7: neither harness mutates state — in the state-passing embedding the
byte at every address of the memory is unchanged on exit, for both harnesses,
every element size, every dereferenceability predicate and all inputs. -/
theorem harnesses_do_not_mutate (sizeT : Nat) (canDeref : Mem → Nat → Bool)
    (mem : Mem) (ptr count object_size a : Nat) (icount : Int) :
    (kani_pointer_add_mem sizeT canDeref mem ptr count object_size).1 a =
      mem a ∧
    (kani_pointer_offset_mem sizeT canDeref mem ptr icount object_size).1 a =
      mem a :=
  ⟨rfl, rfl⟩

/-- Witness for C7: the theorem applied at a concrete memory and inputs. -/
theorem harnesses_do_not_mutate_witness :
    (kani_pointer_add_mem 1 (fun _ _ => true) (fun _ => 0) 0 1 3).1 7 =
      (fun _ => 0 : Mem) 7 ∧
    (kani_pointer_offset_mem 1 (fun _ _ => true) (fun _ => 0) 0 2 3).1 7 =
      (fun _ => 0 : Mem) 7 :=
  harnesses_do_not_mutate 1 (fun _ _ => true) (fun _ => 0) 0 1 3 7 2

/-- C8, counterexample: the division is not performed before every
assumption can discard the run — the dereferenceability assumption precedes
it in the body, and a run with `can_dereference(ptr) = false` is discarded
without the division of the zero-sized instantiation ever faulting. -/
theorem deref_assumption_discards_before_division :
    kani_pointer_offset 0 false 0 0 0 = Outcome.discarded := rfl

/-- C8 (amended): the division `object_size / size_of_t` in
`kani_pointer_offset` is unguarded and is performed before the count
assumption can discard the run (only the dereferenceability assumption
precedes it), so for a zero-sized element type every dereferenceable run
faults; `kani_pointer_add` performs no division and accepts zero-sized
element types with any count; for the `u8` instantiation of the entry points
the divisor is 1 and the division never faults. -/
theorem zst_division_behaviour :
    (∀ (ptr : Nat) (count : Int) (object_size : Nat),
        kani_pointer_offset 0 true ptr count object_size = Outcome.fault) ∧
    (∀ (ptr : Nat) (count : Int) (object_size : Nat),
        kani_pointer_offset 0 false ptr count object_size =
          Outcome.discarded) ∧
    (∀ ptr count object_size : Nat,
        kani_pointer_add 0 true ptr count object_size = Outcome.passed) ∧
    sizeOfU8 = 1 ∧
    (∀ (deref : Bool) (ptr : Nat) (count : Int) (object_size : Nat),
        kani_pointer_offset sizeOfU8 deref ptr count object_size ≠
          Outcome.fault) := by
  refine ⟨fun _ _ _ => rfl, fun _ _ _ => rfl, ?_, rfl, ?_⟩
  · intro ptr count object_size
    simp [kani_pointer_add]
  · intro deref ptr count object_size h
    cases deref
    · exact Outcome.noConfusion h
    · simp only [kani_pointer_offset, sizeOfU8] at h
      rw [if_neg (by decide : ¬(true = false))] at h
      rw [if_neg (by decide : ¬((1 : Nat) = 0))] at h
      split at h
      · split at h
        · exact Outcome.noConfusion h
        · exact Outcome.noConfusion h
      · exact Outcome.noConfusion h

/-- Witness for C8 (amended): a dereferenceable zero-sized run faults, and a
zero-sized run of the addition harness passes with an arbitrary count. -/
theorem zst_division_behaviour_witness :
    kani_pointer_offset 0 true 5 1 3 = Outcome.fault ∧
    kani_pointer_add 0 true 5 7 3 = Outcome.passed :=
  ⟨zst_division_behaviour.1 5 1 3, zst_division_behaviour.2.2.1 5 7 3⟩

/-- C9: in the concrete entry-point runs (element type `u8`, counts 1 and 2,
object size 3) every machine-integer operation stays in range: the
multiplications `count * size_of_t` fit in `usize`, the divisor is 1 so the
division never faults and its result fits, and the end-of-object address
`ptr as usize + object_size` does not wrap whenever the buffer's start
address is at most `usize::MAX - 3`. -/
theorem concrete_runs_arith_in_range (ptr : Nat) (h : ptr ≤ usizeMax - 3) :
    1 * sizeOfU8 ≤ usizeMax ∧ 2 * sizeOfU8 ≤ usizeMax ∧ sizeOfU8 = 1 ∧
    s.utf8ByteSize / sizeOfU8 ≤ usizeMax ∧
    usizeAdd ptr s.utf8ByteSize = ptr + s.utf8ByteSize := by
  have e : usizeMod = 18446744073709551616 := by
    unfold usizeMod usizeBits; norm_num
  have e' : usizeMax = 18446744073709551615 := by
    unfold usizeMax; rw [e]
  refine ⟨?_, ?_, rfl, ?_, ?_⟩
  · rw [e']; norm_num [sizeOfU8]
  · rw [e']; norm_num [sizeOfU8]
  · rw [e', s_utf8ByteSize]; norm_num [sizeOfU8]
  · rw [e'] at h
    rw [s_utf8ByteSize]
    unfold usizeAdd
    rw [e]
    apply Nat.mod_eq_of_lt
    omega

/-- Witness for C9: the theorem applied at `ptr = 0`. -/
theorem concrete_runs_arith_in_range_witness :
    1 * sizeOfU8 ≤ usizeMax ∧ 2 * sizeOfU8 ≤ usizeMax ∧ sizeOfU8 = 1 ∧
    s.utf8ByteSize / sizeOfU8 ≤ usizeMax ∧
    usizeAdd 0 s.utf8ByteSize = 0 + s.utf8ByteSize :=
  concrete_runs_arith_in_range 0 (Nat.zero_le _)

/-- C10: both harnesses are deterministic pure functions of their inputs —
invocations with equal inputs produce equal outcomes, and in the
state-passing embedding the outcome depends on the memory only through the
`can_dereference` verdict: two distinct memories with the same verdict give
the same outcome. -/
theorem harnesses_deterministic
    (sizeT ptr ptr' count count' object_size object_size' : Nat)
    (d d' : Bool) (ic ic' : Int) (canDeref : Mem → Nat → Bool) (mem mem' : Mem)
    (h1 : d = d') (h2 : ptr = ptr') (h3 : count = count')
    (h4 : object_size = object_size') (h5 : ic = ic')
    (h6 : canDeref mem ptr = canDeref mem' ptr) :
    kani_pointer_add sizeT d ptr count object_size =
      kani_pointer_add sizeT d' ptr' count' object_size' ∧
    kani_pointer_offset sizeT d ptr ic object_size =
      kani_pointer_offset sizeT d' ptr' ic' object_size' ∧
    (kani_pointer_add_mem sizeT canDeref mem ptr count object_size).2 =
      (kani_pointer_add_mem sizeT canDeref mem' ptr count object_size).2 ∧
    (kani_pointer_offset_mem sizeT canDeref mem ptr ic object_size).2 =
      (kani_pointer_offset_mem sizeT canDeref mem' ptr ic object_size).2 := by
  subst h1; subst h2; subst h3; subst h4; subst h5
  refine ⟨rfl, rfl, ?_, ?_⟩
  · simp only [kani_pointer_add_mem, h6]
  · simp only [kani_pointer_offset_mem, h6]

/-- Witness for C10: equal concrete inputs give equal outcomes, and two
different memories with the same dereferenceability verdict give the same
outcome. -/
theorem harnesses_deterministic_witness :
    kani_pointer_add 1 true 0 1 3 = kani_pointer_add 1 true 0 1 3 ∧
    kani_pointer_offset 1 true 0 1 3 = kani_pointer_offset 1 true 0 1 3 ∧
    (kani_pointer_add_mem 1 (fun _ _ => true) (fun _ => 0) 0 1 3).2 =
      (kani_pointer_add_mem 1 (fun _ _ => true) (fun _ => 1) 0 1 3).2 ∧
    (kani_pointer_offset_mem 1 (fun _ _ => true) (fun _ => 0) 0 1 3).2 =
      (kani_pointer_offset_mem 1 (fun _ _ => true) (fun _ => 1) 0 1 3).2 :=
  harnesses_deterministic 1 0 0 1 1 3 3 true true 1 1 (fun _ _ => true)
    (fun _ => 0) (fun _ => 1) rfl rfl rfl rfl rfl rfl

end VerifyConstPtr
